import Mathlib

/-!
Verification of `.github/actions/deploy-notify/notify.py` (captainhook).

The script is shallowly embedded: Python strings become `String`, Python
lists become `List`, subprocess / network / filesystem effects become
explicit oracle parameters (`Except` values describing the outcome of the
single external call a function performs), and functions that can raise
return `Except String _`.
-/

namespace Captainhook

/-! ## Python string primitives -/

/-- The whitespace class of Python's `str.strip` / `\s` (ASCII range). -/
def isSpaceChar (c : Char) : Bool :=
  c = ' ' || c = '\t' || c = '\n' || c = '\r' || c = '\x0b' || c = '\x0c'

/-- Model of Python `str.strip()` on the character list. -/
def pyStripList (l : List Char) : List Char :=
  ((l.dropWhile isSpaceChar).reverse.dropWhile isSpaceChar).reverse

/-- Model of Python `str.strip()`. -/
def pyStrip (s : String) : String :=
  String.mk (pyStripList s.toList)

/-- Model of Python slicing `s[:n]` (per code point). -/
def pySlice (s : String) (n : Nat) : String :=
  String.mk (s.toList.take n)

/-- Model of Python `str.splitlines()` on the character list: splits on
`\r\n`, `\r` and `\n`; a final unterminated chunk is kept unless empty. -/
def splitlinesAux : List Char → List Char → List String
  | [], cur => if cur.isEmpty then [] else [String.mk cur.reverse]
  | '\r' :: '\n' :: rest, cur => String.mk cur.reverse :: splitlinesAux rest []
  | '\r' :: rest, cur => String.mk cur.reverse :: splitlinesAux rest []
  | '\n' :: rest, cur => String.mk cur.reverse :: splitlinesAux rest []
  | c :: rest, cur => splitlinesAux rest (c :: cur)

/-- Model of Python `str.splitlines()`. -/
def pySplitlines (s : String) : List String :=
  splitlinesAux s.toList []

/-- ASCII lowercasing of one character, the effect of Python `str.lower`
on the characters this script handles. -/
def charLower (c : Char) : Char :=
  if 'A' ≤ c ∧ c ≤ 'Z' then Char.ofNat (c.toNat + 32) else c

/-- ASCII uppercasing of one character. -/
def charUpper (c : Char) : Char :=
  if 'a' ≤ c ∧ c ≤ 'z' then Char.ofNat (c.toNat - 32) else c

/-- Model of Python `str.lower()`. -/
def pyLower (s : String) : String :=
  String.mk (s.toList.map charLower)

/-- Model of Python `str.capitalize()`: first character uppercased, the
rest lowercased. -/
def pyCapitalize (s : String) : String :=
  match s.toList with
  | [] => ""
  | c :: rest => String.mk (charUpper c :: rest.map charLower)

/-- `startsChars sub l` holds when `sub` is an initial segment of `l`. -/
def startsChars : List Char → List Char → Bool
  | [], _ => true
  | _ :: _, [] => false
  | a :: as, b :: bs => a = b && startsChars as bs

/-- `infixChars sub l` holds when `sub` occurs contiguously in `l`. -/
def infixChars (sub : List Char) : List Char → Bool
  | [] => startsChars sub []
  | c :: rest => startsChars sub (c :: rest) || infixChars sub rest

/-- Model of Python's substring test `sub in s`. -/
def pyIn (sub s : String) : Bool :=
  infixChars sub.toList s.toList

/-- Model of Python `str.startswith(pre)`. -/
def pyStartsWith (s pre : String) : Bool :=
  startsChars pre.toList s.toList

/-- Split a character list at every occurrence of `sep`, the model of
Python `s.split(sep)` for a one-character separator. -/
def splitCharAux (sep : Char) : List Char → List Char → List String
  | [], cur => [String.mk cur.reverse]
  | c :: rest, cur =>
      if c = sep then String.mk cur.reverse :: splitCharAux sep rest []
      else splitCharAux sep rest (c :: cur)

/-- Model of Python `s.split(sep)` for a one-character separator `sep`. -/
def pySplitChar (s : String) (sep : Char) : List String :=
  splitCharAux sep s.toList []

/-! ## Data model -/

/-- `CommitRecord`: one parsed line of `git log` output
(`{"short_sha": ..., "subject": ..., "author": ...}` in the script). -/
structure Commit where
  short_sha : String
  subject : String
  author : String
deriving DecidableEq, Repr

/-! ## Commit collector (`build_commits`, notify.py lines 54-90) -/

/-- The all-zero sentinel `"0" * 40`. -/
def zero_sha : String := String.mk (List.replicate 40 '0')

/-- The revision expression chosen by `build_commits` (lines 55-64):
a range when both endpoints are usable, the single `after` revision when
only it is, `HEAD` otherwise. -/
def build_rev (before_sha after_sha : String) : String :=
  if (before_sha ≠ "" ∧ before_sha ≠ zero_sha) ∧ after_sha ≠ "" then
    before_sha ++ ".." ++ after_sha
  else if after_sha ≠ "" then
    after_sha
  else
    "HEAD"

/-- Parse one `git log` output line (lines 78-89): split on the unit
separator `\x1f`; exactly three fields yield a record with each field
stripped, any other field count yields nothing. -/
def parseCommitLine (line : String) : Option Commit :=
  match pySplitChar line '\x1f' with
  | [a, b, c] => some ⟨pyStrip a, pyStrip b, pyStrip c⟩
  | _ => none

/-- Oracle for the one `git log` invocation: maps the revision expression
to either the subprocess's stdout or a failure (`CalledProcessError` etc.). -/
def GitOracle : Type := String → Except Unit String

/-- `build_commits` (lines 54-90). The `git` helper (line 35-36) strips the
subprocess output; any invocation failure is swallowed and treated as empty
output (lines 66-75). -/
def build_commits (git : GitOracle) (before_sha after_sha : String)
    (_max_commits : Int) : List Commit :=
  let rev := build_rev before_sha after_sha
  let raw : String :=
    match git rev with
    | .ok out => pyStrip out
    | .error _ => ""
  (pySplitlines raw).filterMap parseCommitLine

/-- Model of Python `sep.join(parts)`. -/
def pyJoin (sep : String) : List String → String
  | [] => ""
  | [x] => x
  | x :: y :: rest => x ++ sep ++ pyJoin sep (y :: rest)

/-! ## Subject selection and message templating -/

/-- `META_KEYWORDS` (notify.py lines 12-21). -/
def META_KEYWORDS : List String :=
  ["deploy", "workflow", "actions", "ci", "discord", "webhook", "runner",
   "pipeline"]

/-- The meta test of `select_notable_subjects` (line 131): some keyword
occurs in the lowercased subject. -/
def hasMetaKeyword (s : String) : Bool :=
  META_KEYWORDS.any (fun k => pyIn k (pyLower s))

/-- `select_notable_subjects` (lines 123-134): keep the non-empty subjects,
drop the ones mentioning a meta keyword when any subject survives that
filter, and cap the result at `limit`. -/
def select_notable_subjects (commits : List Commit) (limit : Nat) :
    List String :=
  let subjects := (commits.map Commit.subject).filter (fun s => s ≠ "")
  if subjects = [] then []
  else
    let non_meta := subjects.filter (fun s => !hasMetaKeyword s)
    if non_meta = [] then subjects.take limit else non_meta.take limit

/-- `fallback_success_copy` (lines 137-149): deterministic success
message. -/
def fallback_success_copy (repo_name : String) (commits : List Commit)
    (commit_link : String) : String :=
  let opener :=
    "Arr matey, " ++ repo_name ++ "\x27s latest deployment just landed clean."
  let subjects := select_notable_subjects commits 3
  let bullets :=
    if subjects = [] then ["• Primarily internal maintenance this voyage."]
    else subjects.map (fun s => "• " ++ s)
  let lines := [opener, ""] ++ bullets
  let lines :=
    if commit_link ≠ "" then lines ++ ["", "Commit: " ++ commit_link]
    else lines
  pyStrip (pyJoin "\n" lines)

/-! ## Commit-subject classifier

The "Features" / "Fixes / Improvements" classifier belongs to a later
revision of this repository's script that is not present under `src/`
(the `notify.py` at hand only selects notable subjects). It is modelled
below from the specification's description. -/

/-- Modelled from the spec: the known feature-type vocabulary of the
conventional-commit prefix match in the classifier of the later script
revision (absent from `src/`). -/
def FEATURE_TYPES : List String := ["feat", "feats", "feature", "features"]

/-- Modelled from the spec: the feature-indicating phrases of the lexical
fallback match in the classifier of the later script revision (absent from
`src/`). -/
def FEATURE_PHRASES : List String :=
  ["add ", "adds ", "added ", "introduce ", "introduces ", "introduced ",
   "support ", "supports ", "new "]

/-- Modelled from the spec: the commit-subject classifier of the later
script revision (absent from `src/`), which buckets a subject as
"Features" or "Fixes / Improvements" using, in order, a
conventional-commit prefix match, a lexical feature-phrase match, and a
default to the improvements bucket. -/
def classify_subject (subject : String) : String :=
  let lower := pyLower (pyStrip subject)
  let parts := pySplitChar lower ':'
  let convType := pyStrip (parts.headD "")
  if parts.length ≥ 2 ∧ FEATURE_TYPES.contains convType then "Features"
  else if FEATURE_PHRASES.any (fun p => pyStartsWith lower p) then "Features"
  else "Fixes / Improvements"

/-! ## Sanitizer (`sanitize_success_copy`, lines 179-207) -/

/-- A digit, `\d` of the script's regexes (ASCII). -/
def isDigitChar (c : Char) : Bool := decide ('0' ≤ c ∧ c ≤ '9')

/-- A character of the fence info string, `[a-zA-Z0-9_-]`. -/
def isFenceNameChar (c : Char) : Bool :=
  decide (('a' ≤ c ∧ c ≤ 'z') ∨ ('A' ≤ c ∧ c ≤ 'Z') ∨
    ('0' ≤ c ∧ c ≤ '9') ∨ c = '_' ∨ c = '-')

/-- Remove a leading fence line, the `^\x60\x60\x60[a-zA-Z0-9_-]*\n`
alternative of the cleaning substitution (line 180): three backticks, a
run of fence-name characters, then a newline. -/
def dropFenceOpen (l : List Char) : List Char :=
  match l with
  | '\x60' :: '\x60' :: '\x60' :: rest =>
      (match rest.dropWhile isFenceNameChar with
       | '\n' :: tail => tail
       | _ => l)
  | _ => l

/-- Model of `re.sub(r"^\x60\x60\x60[a-zA-Z0-9_-]*\n|\n\x60\x60\x60$", "", t)`
(line 180): drop a leading fence line, then a trailing `\n\x60\x60\x60`
from what remains (the input is already stripped, so `$` is the end of the
string; `re.sub` resumes scanning after the consumed opening fence, which
the sequential composition reproduces). -/
def stripFences (t : String) : String :=
  let l := dropFenceOpen t.toList
  if startsChars ['\x60', '\x60', '\x60', '\n'] l.reverse then
    String.mk (l.take (l.length - 4))
  else String.mk l

/-- `\s+\d` at the front of `l`: one or more whitespace characters then a
digit. -/
def spacesThenDigit (l : List Char) : Bool :=
  match l with
  | [] => false
  | c :: _ =>
      isSpaceChar c &&
      (match l.dropWhile isSpaceChar with
       | d :: _ => isDigitChar d
       | [] => false)

/-- Search for `key` followed by `\s+\d` anywhere in `l`. -/
def searchKeyNum (key : List Char) : List Char → Bool
  | [] => false
  | c :: rest =>
      (startsChars key (c :: rest) &&
        spacesThenDigit ((c :: rest).drop key.length)) ||
      searchKeyNum key rest

/-- Model of `re.search(r"captainhook\s+\d|openclaw\s+\d", opener.lower())`
(line 188): the opener collides with a reserved template marker. -/
def openerCollision (opener : String) : Bool :=
  searchKeyNum "captainhook".toList (pyLower opener).toList ||
  searchKeyNum "openclaw".toList (pyLower opener).toList

/-- The character class `[•\-*\d\.)\s]` of the bullet-mark substitution
(line 193). -/
def isBulletMarkChar (c : Char) : Bool :=
  c = '•' || c = '-' || c = '*' || isDigitChar c || c = '.' || c = ')' ||
  isSpaceChar c

/-- The re-bulleted text of one line:
`re.sub(r"^[•\-*\d\.)\s]+", "", line).strip()` (line 193). -/
def bulletText (line : String) : String :=
  pyStrip (String.mk (line.toList.dropWhile isBulletMarkChar))

/-- The padding loop of `sanitize_success_copy` (lines 198-202): append
each fallback bullet not already present until three bullets exist. -/
def padBullets : List String → List String → List String
  | bullets, [] => bullets
  | bullets, f :: rest =>
      if bullets.length ≥ 3 then bullets
      else if f ∈ bullets then padBullets bullets rest
      else padBullets (bullets ++ [f]) rest

/-- `sanitize_success_copy` (lines 179-207); the `ValueError` raised on
empty model output becomes the `Except.error` case. -/
def sanitize_success_copy (text fallback_opener : String)
    (fallback_bullets : List String) : Except String String :=
  let cleaned := stripFences (pyStrip text)
  let raw_lines := ((pySplitlines cleaned).map pyStrip).filter
    (fun l => l ≠ "")
  let raw_lines := raw_lines.filter
    (fun l => !pyIn "http://" l && !pyIn "https://" l)
  match raw_lines with
  | [] => .error "Model returned empty output."
  | first :: rest =>
      let opener := if openerCollision first then fallback_opener else first
      let bullets := ((rest.map bulletText).filter (fun t => t ≠ "")).map
        (fun t => "• " ++ t)
      let bullets := padBullets bullets fallback_bullets
      let bullets :=
        if bullets = [] then
          (if fallback_bullets ≠ [] then fallback_bullets.take 1
           else ["• Primarily internal maintenance this voyage."])
        else bullets
      .ok (pyStrip (pyJoin "\n" ([opener, ""] ++ bullets.take 3)))

/-- Lines of `s` that begin with a bullet marker "• ". -/
def bulletLineCount (s : String) : Nat :=
  ((pySplitlines s).filter (fun l => pyStartsWith l "• ")).length

/-- The `raw_lines` value of `sanitize_success_copy` (lines 180-182):
stripped non-empty lines of the fence-cleaned text, with URL-bearing
lines removed. -/
def sanitizeRawLines (text : String) : List String :=
  let cleaned := stripFences (pyStrip text)
  let raw_lines := ((pySplitlines cleaned).map pyStrip).filter
    (fun l => l ≠ "")
  raw_lines.filter (fun l => !pyIn "http://" l && !pyIn "https://" l)

/-- The `opener` value of `sanitize_success_copy` (lines 187-189): the
first retained line, or the fallback opener on a marker collision (on the
raising empty-input case, where the code never reaches this point, the
fallback opener). -/
def sanitizedOpener (text fallback_opener : String) : String :=
  match sanitizeRawLines text with
  | [] => fallback_opener
  | first :: _ => if openerCollision first then fallback_opener else first

/-- The final `bullets[:3]` value of `sanitize_success_copy`
(lines 191-207): the re-bulleted remaining lines, padded from the
fallback bullets, repaired when empty, and capped at three (on the
raising empty-input case, where the code never reaches this point, the
empty list). -/
def sanitizedBullets (text : String) (fallback_bullets : List String) :
    List String :=
  match sanitizeRawLines text with
  | [] => []
  | _ :: rest =>
      let bullets := ((rest.map bulletText).filter (fun t => t ≠ "")).map
        (fun t => "• " ++ t)
      let bullets := padBullets bullets fallback_bullets
      let bullets :=
        if bullets = [] then
          (if fallback_bullets ≠ [] then fallback_bullets.take 1
           else ["• Primarily internal maintenance this voyage."])
        else bullets
      bullets.take 3

/-! ## Response extraction (`extract_response_text`, lines 152-176) -/

/-- Python values as they come out of `json.loads`: `None`, strings,
numbers, objects and arrays. -/
inductive PyVal where
  | pnone
  | pstr (s : String)
  | pnum (n : Int)
  | pdict (fields : List (String × PyVal))
  | plist (items : List PyVal)

/-- Python truthiness of the modelled values. -/
def pyTruthy : PyVal → Bool
  | .pnone => false
  | .pstr s => !(s = "")
  | .pnum n => !(n = 0)
  | .pdict fs => !fs.isEmpty
  | .plist l => !l.isEmpty

/-- Model of `x or []`. -/
def pyOrEmptyList (v : PyVal) : PyVal :=
  if pyTruthy v then v else .plist []

/-- Model of `d.get(k)`: the value under `k`, `None` when absent. -/
def dictGet (fs : List (String × PyVal)) (k : String) : PyVal :=
  match fs.lookup k with
  | some v => v
  | none => .pnone

/-- Model of iterating a Python value with `for`: a list yields its items,
a string its characters, a dict its keys; `None` and numbers raise
`TypeError`. -/
def iterItems : PyVal → Except String (List PyVal)
  | .plist xs => .ok xs
  | .pstr s => .ok (s.toList.map (fun c => .pstr (String.mk [c])))
  | .pdict fs => .ok (fs.map (fun p => PyVal.pstr p.1))
  | .pnone => .error "NoneType object is not iterable"
  | .pnum _ => .error "number object is not iterable"

/-- The `text` branch of the part loop (lines 168-175): a string `text`
field, or a dict `text` field with a string `value`. -/
def chunkFromTextField (pf : List (String × PyVal)) : Option String :=
  match dictGet pf "text" with
  | .pstr t => if pyStrip t ≠ "" then some (pyStrip t) else none
  | .pdict tf =>
      (match dictGet tf "value" with
       | .pstr v => if pyStrip v ≠ "" then some (pyStrip v) else none
       | _ => none)
  | _ => none

/-- One iteration of the part loop (lines 161-175): non-dict parts are
skipped; a string `value` field wins, then the `text` field. -/
def chunkOfPart (p : PyVal) : Option String :=
  match p with
  | .pdict pf =>
      (match dictGet pf "value" with
       | .pstr v => if pyStrip v ≠ "" then some (pyStrip v)
           else chunkFromTextField pf
       | _ => chunkFromTextField pf)
  | _ => none

/-- One iteration of the item loop (lines 158-175): non-dict items are
skipped, otherwise the item's `content` is iterated for chunks. -/
def itemChunks (item : PyVal) : Except String (List String) :=
  match item with
  | .pdict ifs =>
      (match iterItems (pyOrEmptyList (dictGet ifs "content")) with
       | .error e => .error e
       | .ok parts => .ok (parts.filterMap chunkOfPart))
  | _ => .ok []

/-- The chunk-collection path of `extract_response_text`
(lines 157-176). -/
def extractChunksJoined (fs : List (String × PyVal)) :
    Except String String :=
  match iterItems (pyOrEmptyList (dictGet fs "output")) with
  | .error e => .error e
  | .ok items =>
      (match items.mapM itemChunks with
       | .error e => .error e
       | .ok chunkLists => .ok (pyStrip (pyJoin "\n" chunkLists.flatten)))

/-- `extract_response_text` (lines 152-176): a non-blank string
`output_text` wins, otherwise the chunks of the nested `output` content
parts are joined; iteration `TypeError`s surface as errors. -/
def extract_response_text (fs : List (String × PyVal)) :
    Except String String :=
  match dictGet fs "output_text" with
  | .pstr s =>
      if pyStrip s ≠ "" then .ok (pyStrip s) else extractChunksJoined fs
  | _ => extractChunksJoined fs

/-! ## Generation call (`render_success_with_openai`, lines 210-288) -/

/-- Oracle for the one OpenAI HTTP call: the request construction cannot
fail, so the call's outcome is a network-level failure, an HTTP error, a
non-JSON body, or a parsed JSON document. -/
inductive NetResult where
  | netFailure (msg : String)
  | httpError (code : Nat) (body : String)
  | badJson
  | ok (v : PyVal)

/-- `render_success_with_openai` (lines 210-288) as a function of the call
outcome: failures and empty extracted text raise (become errors), a
non-dict JSON document raises when `.get` is attempted on it. -/
def render_success_with_openai (net : NetResult) : Except String String :=
  match net with
  | .netFailure msg => .error msg
  | .httpError code body =>
      .error ("OpenAI HTTPError " ++ toString code ++ ": " ++ body)
  | .badJson => .error "response body is not valid JSON"
  | .ok (.pdict fs) =>
      (match extract_response_text fs with
       | .error e => .error e
       | .ok text =>
           if text = "" then .error "Model returned empty output."
           else .ok text)
  | .ok _ => .error "response object has no attribute get"

/-- `generate_success_copy` (lines 291-328): without a credential the
deterministic fallback; with one, the rendered-and-sanitized model text
plus the commit link, falling back on any failure. -/
def generate_success_copy (net : NetResult) (repo repo_name branch actor :
    String) (commits : List Commit)
    (commit_link openai_api_key model soul : String) : String :=
  let fallback_bullets :=
    (select_notable_subjects commits 3).map (fun s => "• " ++ s)
  let fallback_opener :=
    "Arr matey, " ++ repo_name ++ "\x27s latest deployment just landed clean."
  if openai_api_key = "" then fallback_success_copy repo_name commits commit_link
  else
    match (render_success_with_openai net).bind
        (fun rendered =>
          sanitize_success_copy rendered fallback_opener fallback_bullets) with
    | .error _ => fallback_success_copy repo_name commits commit_link
    | .ok body =>
        let lines :=
          if commit_link ≠ "" then [body, "", "Commit: " ++ commit_link]
          else [body]
        pyStrip (pyJoin "\n" lines)

/-- `generate_failure_copy` (lines 331-341). -/
def generate_failure_copy (repo_name branch actor run_url : String) :
    String :=
  pyStrip (pyJoin "\n"
    ["Arr matey, rough seas — " ++ repo_name ++ " failed to deploy on \x60"
       ++ branch ++ "\x60.",
     "",
     "• Build/deploy did not land.",
     "• No feature notes posted for failed voyages.",
     "• Triggered by: " ++ actor,
     "",
     "Run: " ++ run_url])

/-! ## Notifier and main (`post_discord`, `main`, lines 344-416) -/

/-- An outbound HTTP call the script performs. -/
inductive HttpCall where
  | openaiCall
  | webhookCall (url content : String)
deriving DecidableEq

/-- The `content` field of the JSON body `post_discord` sends:
`content[:1900]` (line 345). -/
def post_discord_payload (content : String) : String :=
  pySlice content 1900

/-- `post_discord` (lines 344-365): one webhook POST; a non-success HTTP
response is logged and re-raised (the error outcome). -/
def post_discord (outcome : Except Nat Unit) (webhook_url content : String) :
    List HttpCall × Except String Unit :=
  ([.webhookCall webhook_url (post_discord_payload content)],
   match outcome with
   | .ok _ => .ok ()
   | .error code => .error ("Discord webhook HTTPError: " ++ toString code))

/-- `env` (lines 24-25): `(os.getenv(name) or default).strip()`. -/
def envVar (e : String → Option String) (name default_ : String) : String :=
  pyStrip (match e name with
    | some v => if v = "" then default_ else v
    | none => default_)

/-- All digits, folded to their value. -/
def parseDigits : List Char → Option Nat
  | [] => none
  | l =>
      if l.all isDigitChar then
        some (l.foldl (fun acc c => acc * 10 + (c.toNat - 48)) 0)
      else none

/-- `to_int` (lines 28-32): `int(value)` with a default on failure
(underscore digit grouping is not modelled; the script only parses
`CH_MAX_COMMITS` with it). -/
def pyToInt (s : String) (default_ : Int) : Int :=
  match pyStripList s.toList with
  | '+' :: rest =>
      (match parseDigits rest with
       | some n => (n : Int)
       | none => default_)
  | '-' :: rest =>
      (match parseDigits rest with
       | some n => -(n : Int)
       | none => default_)
  | l =>
      (match parseDigits l with
       | some n => (n : Int)
       | none => default_)

/-- `read_event_before_sha` (lines 39-51). The oracle is the parsed event
document: `none` when the file is missing or not valid JSON (both
swallowed), otherwise the document; a non-dict document raises
`AttributeError` at `payload.get` (line 50), which nothing catches. -/
def read_event_before_sha (e : String → Option String)
    (event : Option PyVal) : Except String String :=
  if envVar e "GITHUB_EVENT_PATH" "" = "" then .ok ""
  else
    match event with
    | none => .ok ""
    | some (.pdict fs) =>
        (match dictGet fs "before" with
         | .pstr s => .ok (pyStrip s)
         | _ => .ok "")
    | some _ => .error "event payload object has no attribute get"

/-- `normalize_repo_name` (lines 99-102). -/
def normalize_repo_name (repo : String) : String :=
  let short :=
    if repo ≠ "" then (pySplitChar repo '/').getLastD "" else "repo"
  let pieces := (pySplitChar
    (String.mk (short.toList.map (fun c => if c = '_' then '-' else c)))
    '-').filter (fun p => p ≠ "")
  if pieces ≠ [] then pyJoin " " (pieces.map pyCapitalize) else short

/-- `commit_url` (lines 93-96). -/
def commit_url (repo after_sha : String) : String :=
  if repo ≠ "" ∧ after_sha ≠ "" then
    "https://github.com/" ++ repo ++ "/commit/" ++ after_sha
  else ""

/-- The external world `main` runs against: the process environment and
the oracles for the filesystem, subprocess and network effects. -/
structure World where
  env : String → Option String
  event : Option PyVal
  soul : String
  git : GitOracle
  net : NetResult
  webhook : Except Nat Unit

/-- `main` (lines 368-416), observed as the outbound HTTP calls it makes
and its outcome (`Except.error` models an uncaught exception). `soul` is
the filesystem oracle standing for `read_soul`. -/
def mainModel (w : World) : List HttpCall × Except String Unit :=
  let webhook_url := envVar w.env "CH_DISCORD_WEBHOOK_URL" ""
  let openai_api_key := envVar w.env "CH_OPENAI_API_KEY" ""
  let openai_model := envVar w.env "CH_OPENAI_MODEL" "gpt-4.1-mini"
  let _style_file := envVar w.env "CH_STYLE_FILE" ""
  let max_commits := pyToInt (envVar w.env "CH_MAX_COMMITS" "8") 8
  if webhook_url = "" then ([], .ok ())
  else
    let repo := envVar w.env "GITHUB_REPOSITORY" ""
    let repo_name := normalize_repo_name repo
    let branch := envVar w.env "GITHUB_REF_NAME" ""
    let actor := envVar w.env "GITHUB_ACTOR" ""
    match read_event_before_sha w.env w.event with
    | .error e => ([], .error e)
    | .ok before_sha =>
        let after_sha := envVar w.env "GITHUB_SHA" ""
        let run_url := envVar w.env "GITHUB_SERVER_URL" "" ++ "/" ++ repo ++
          "/actions/runs/" ++ envVar w.env "GITHUB_RUN_ID" ""
        let job_status := pyLower (envVar w.env "CH_JOB_STATUS" "unknown")
        let soul := w.soul
        let commits := build_commits w.git before_sha after_sha max_commits
        let latest_commit_link := commit_url repo after_sha
        if job_status ≠ "success" then
          post_discord w.webhook webhook_url
            (generate_failure_copy repo_name branch actor run_url)
        else
          let content := generate_success_copy w.net repo repo_name branch
            actor commits latest_commit_link openai_api_key openai_model soul
          let genCalls : List HttpCall :=
            if openai_api_key = "" then [] else [.openaiCall]
          let posted := post_discord w.webhook webhook_url content
          (genCalls ++ posted.1, posted.2)

/-- The run link `main` builds (line 386). -/
def runUrlOf (w : World) : String :=
  envVar w.env "GITHUB_SERVER_URL" "" ++ "/" ++
  envVar w.env "GITHUB_REPOSITORY" "" ++ "/actions/runs/" ++
  envVar w.env "GITHUB_RUN_ID" ""

/-- The failure-branch message `main` posts (lines 395-402). -/
def failureContent (w : World) : String :=
  generate_failure_copy
    (normalize_repo_name (envVar w.env "GITHUB_REPOSITORY" ""))
    (envVar w.env "GITHUB_REF_NAME" "")
    (envVar w.env "GITHUB_ACTOR" "")
    (runUrlOf w)

/-- A concrete world whose job status is "failure". -/
def failureWorld : World :=
  ⟨fun n =>
    if n = "CH_DISCORD_WEBHOOK_URL" then some "https://hook.example"
    else if n = "CH_JOB_STATUS" then some "failure"
    else if n = "GITHUB_REF_NAME" then some "main"
    else if n = "GITHUB_ACTOR" then some "alice"
    else none,
   none, "", fun _ => .error (), .badJson, .ok ()⟩

end Captainhook

namespace Captainhook

/-! ## Claims about the commit collector -/

/-- C5: `build_rev` picks `before..after` when before is non-empty and not
the forty-zero sentinel and after is non-empty; the single revision `after`
when only `after` is non-empty; and `HEAD` otherwise; in particular when
`before` is empty or the sentinel the result is never the constructed
range (it is `after` or `HEAD`). -/
theorem build_rev_selects (before after : String) :
    (before ≠ "" → before ≠ zero_sha → after ≠ "" →
      build_rev before after = before ++ ".." ++ after) ∧
    ((before = "" ∨ before = zero_sha) → after ≠ "" →
      build_rev before after = after) ∧
    (after = "" → build_rev before after = "HEAD") ∧
    ((before = "" ∨ before = zero_sha) →
      build_rev before after = after ∨ build_rev before after = "HEAD") := by
  unfold build_rev
  refine ⟨?_, ?_, ?_, ?_⟩
  · intro h1 h2 h3
    rw [if_pos ⟨⟨h1, h2⟩, h3⟩]
  · intro h h3
    rcases h with h | h <;> simp [h, h3]
  · intro h
    simp [h]
  · intro h
    rcases h with h | h <;>
    · by_cases ha : after = "" <;> simp [h, ha]

/-- Witness for C5 at concrete revisions. -/
theorem build_rev_selects_witness :
    build_rev "" "abc123" = "abc123" ∧ build_rev zero_sha "" = "HEAD" :=
  ⟨(build_rev_selects "" "abc123").2.1 (Or.inl rfl) (by decide),
   (build_rev_selects zero_sha "").2.2.1 rfl⟩

/-- C6: whenever the `git log` invocation fails, `build_commits` returns
the empty list (in the embedding it is a total function, so it cannot
raise). -/
theorem build_commits_empty_on_git_failure (git : GitOracle)
    (before after : String) (m : Int)
    (h : git (build_rev before after) = .error ()) :
    build_commits git before after m = [] := by
  simp only [build_commits, h]
  rfl

/-- Witness for C6: a concrete always-failing oracle yields no commits. -/
theorem build_commits_empty_on_git_failure_witness :
    build_commits (fun _ => .error ()) "a" "b" 8 = [] :=
  build_commits_empty_on_git_failure (fun _ => .error ()) "a" "b" 8 rfl

/-- C8: a log line yields a commit record iff splitting it on the unit
separator gives exactly three fields; any other field count is silently
dropped; an emitted record carries the three fields stripped, and
`build_commits` is exactly the per-line parse mapped over the (stripped)
raw output's lines. -/
theorem build_commits_line_parsing (line : String) (git : GitOracle)
    (before after : String) (m : Int) :
    ((parseCommitLine line).isSome ↔ (pySplitChar line '\x1f').length = 3) ∧
    (∀ a b c, pySplitChar line '\x1f' = [a, b, c] →
      parseCommitLine line = some ⟨pyStrip a, pyStrip b, pyStrip c⟩) ∧
    build_commits git before after m =
      (pySplitlines (match git (build_rev before after) with
        | .ok out => pyStrip out
        | .error _ => "")).filterMap parseCommitLine := by
  refine ⟨?_, ?_, rfl⟩
  · unfold parseCommitLine
    rcases h : pySplitChar line '\x1f' with _ | ⟨a, _ | ⟨b, _ | ⟨c, _ | d⟩⟩⟩ <;>
      simp
  · intro a b c h
    unfold parseCommitLine
    rw [h]

/-- Witness for C8: a well-formed line parses to the stripped record, a
malformed line is dropped. -/
theorem build_commits_line_parsing_witness :
    parseCommitLine "ab12\x1f feat: x \x1fAda" =
      some ⟨"ab12", "feat: x", "Ada"⟩ ∧
    (parseCommitLine "onlyone\x1ftwo").isSome = false := by
  constructor
  · exact (build_commits_line_parsing "ab12\x1f feat: x \x1fAda"
      (fun _ => .error ()) "" "" 0).2.1 "ab12" " feat: x " "Ada" (by decide)
  · decide

/-! ## Claims about subject selection and the classifier -/

/-- C10: `select_notable_subjects` returns at most `limit` subjects, each
drawn in order from the non-empty subjects of the input commits, and when
at least one of those subjects mentions no meta keyword, every returned
subject mentions no meta keyword. -/
theorem select_notable_subjects_spec (commits : List Commit) (limit : Nat) :
    (select_notable_subjects commits limit).length ≤ limit ∧
    (select_notable_subjects commits limit).Sublist
      ((commits.map Commit.subject).filter (fun s => s ≠ "")) ∧
    ((∃ s ∈ (commits.map Commit.subject).filter (fun s => s ≠ ""),
        hasMetaKeyword s = false) →
      ∀ s ∈ select_notable_subjects commits limit,
        hasMetaKeyword s = false) := by
  unfold select_notable_subjects
  by_cases h1 : (commits.map Commit.subject).filter (fun s => s ≠ "") = []
  · rw [if_pos h1]
    exact ⟨Nat.zero_le _, List.nil_sublist _,
      fun _ s hs => absurd hs (List.not_mem_nil s)⟩
  · rw [if_neg h1]
    by_cases h2 : ((commits.map Commit.subject).filter (fun s => s ≠ "")).filter
        (fun s => !hasMetaKeyword s) = []
    · rw [if_pos h2]
      refine ⟨List.length_take_le _ _, List.take_sublist _ _, ?_⟩
      rintro ⟨s, hsmem, hsm⟩
      have hmem2 : s ∈ ((commits.map Commit.subject).filter
          (fun s => s ≠ "")).filter (fun s => !hasMetaKeyword s) :=
        List.mem_filter.mpr ⟨hsmem, by simp [hsm]⟩
      rw [h2] at hmem2
      exact absurd hmem2 (List.not_mem_nil s)
    · rw [if_neg h2]
      refine ⟨List.length_take_le _ _,
        (List.take_sublist _ _).trans (List.filter_sublist _), ?_⟩
      intro _ s hmem
      have hf := List.of_mem_filter (List.mem_of_mem_take hmem)
      simpa using hf

/-- Witness for C10: with one meta subject and one clean subject, only the
clean one comes back. -/
theorem select_notable_subjects_spec_witness :
    (∃ s ∈ (([⟨"a1", "ci: tweak pipeline", "x"⟩,
              ⟨"a2", "feat: add login", "y"⟩] : List Commit).map
        Commit.subject).filter (fun s => s ≠ ""),
      hasMetaKeyword s = false) ∧
    ∀ s ∈ select_notable_subjects
        [⟨"a1", "ci: tweak pipeline", "x"⟩, ⟨"a2", "feat: add login", "y"⟩] 3,
      hasMetaKeyword s = false :=
  ⟨by decide,
   (select_notable_subjects_spec
      [⟨"a1", "ci: tweak pipeline", "x"⟩, ⟨"a2", "feat: add login", "y"⟩]
      3).2.2 (by decide)⟩

/-- C2: the modelled classifier puts every subject in one of the two
buckets, with "feat: add login" a feature, and "fix: null pointer" and
"Update README" improvements. -/
theorem classify_subject_spec :
    classify_subject "feat: add login" = "Features" ∧
    classify_subject "fix: null pointer" = "Fixes / Improvements" ∧
    classify_subject "Update README" = "Fixes / Improvements" ∧
    ∀ s, classify_subject s = "Features" ∨
      classify_subject s = "Fixes / Improvements" := by
  refine ⟨by decide, by decide, by decide, ?_⟩
  intro s
  unfold classify_subject
  dsimp only
  split
  · exact Or.inl rfl
  · split
    · exact Or.inl rfl
    · exact Or.inr rfl

/-! ## Claims about the generator, sanitizer and notifier -/

/-- C3: the `content` field of the JSON body `post_discord` sends is at
most 1900 characters long, whatever the input message. -/
theorem post_discord_payload_length (content : String) :
    (post_discord_payload content).length ≤ 1900 := by
  have h : (post_discord_payload content).length =
      (content.toList.take 1900).length := rfl
  rw [h]
  exact List.length_take_le _ _

/-- C1: with a credential present, any failure of the render-and-sanitize
pipeline (network error, HTTP error, malformed JSON, empty extracted text,
sanitization error — every one an `Except.error` of the pipeline) makes
`generate_success_copy` return exactly `fallback_success_copy` of the same
repository name, commits and commit link. -/
theorem generate_success_copy_falls_back
    (net : NetResult) (repo repo_name branch actor : String)
    (commits : List Commit)
    (commit_link openai_api_key model soul e : String)
    (hkey : openai_api_key ≠ "")
    (hfail : (render_success_with_openai net).bind
      (fun rendered => sanitize_success_copy rendered
        ("Arr matey, " ++ repo_name ++
          "\x27s latest deployment just landed clean.")
        ((select_notable_subjects commits 3).map (fun s => "• " ++ s))) =
      .error e) :
    generate_success_copy net repo repo_name branch actor commits commit_link
      openai_api_key model soul =
      fallback_success_copy repo_name commits commit_link := by
  simp only [generate_success_copy]
  rw [if_neg hkey, hfail]

/-- Witness for C1: a concrete network failure yields the fallback
message. -/
theorem generate_success_copy_falls_back_witness :
    generate_success_copy (.netFailure "boom") "acme/widget" "Widget" "main"
      "alice" [] "" "sk-test" "gpt-4.1-mini" "" =
      fallback_success_copy "Widget" [] "" :=
  generate_success_copy_falls_back (.netFailure "boom") "acme/widget"
    "Widget" "main" "alice" [] "" "sk-test" "gpt-4.1-mini" "" "boom"
    (by decide) (by rfl)

/-- C9 counterexample: when the model text's first line itself begins with
"• ", the sanitized output has four bullet lines, refuting the
three-bullet-line bound as stated. -/
theorem sanitize_success_copy_four_bullet_lines :
    sanitize_success_copy "• a\nb\nc\nd" "op" [] =
      .ok "• a\n\n• b\n• c\n• d" ∧
    bulletLineCount "• a\n\n• b\n• c\n• d" = 4 :=
  ⟨by rfl, by rfl⟩

theorem padBullets_mem (b : String) (bs fs : List String)
    (h : b ∈ padBullets bs fs) : b ∈ bs ∨ b ∈ fs := by
  induction fs generalizing bs with
  | nil => exact Or.inl h
  | cons f rest ih =>
      unfold padBullets at h
      split at h
      · exact Or.inl h
      · split at h
        · rcases ih _ h with h' | h'
          · exact Or.inl h'
          · exact Or.inr (List.mem_cons_of_mem f h')
        · rcases ih _ h with h' | h'
          · rcases List.mem_append.mp h' with h'' | h''
            · exact Or.inl h''
            · rw [List.mem_singleton.mp h'']
              exact Or.inr (List.mem_cons_self f rest)
          · exact Or.inr (List.mem_cons_of_mem f h')

/-- C9 amended: a non-raising run of `sanitize_success_copy` returns
exactly the chosen opener, a blank line, and the computed bullet list
`sanitizedBullets` joined by newlines; that list has at most three
entries, each of which begins with "• " or is drawn from the fallback
bullets (the cap of three applies to these bullet entries after the
opener, not to every output line beginning with "• "). -/
theorem sanitize_success_copy_bullets_capped
    (text fallback_opener : String) (fallback_bullets : List String)
    (r : String)
    (h : sanitize_success_copy text fallback_opener fallback_bullets =
      .ok r) :
    r = pyStrip (pyJoin "\n" ([sanitizedOpener text fallback_opener, ""] ++
      sanitizedBullets text fallback_bullets)) ∧
    (sanitizedBullets text fallback_bullets).length ≤ 3 ∧
    ∀ b ∈ sanitizedBullets text fallback_bullets,
      pyStartsWith b "• " = true ∨ b ∈ fallback_bullets := by
  have hE : (((pySplitlines (stripFences (pyStrip text))).map
      pyStrip).filter (fun l => l ≠ "")).filter
      (fun l => !pyIn "http://" l && !pyIn "https://" l) =
      sanitizeRawLines text := rfl
  simp only [sanitize_success_copy] at h
  rw [hE] at h
  split at h
  · exact absurd h (by simp)
  · rename_i first rest hsr
    have hop : sanitizedOpener text fallback_opener =
        (if openerCollision first then fallback_opener else first) := by
      unfold sanitizedOpener
      rw [hsr]
    have hbul : sanitizedBullets text fallback_bullets =
        (if padBullets (((rest.map bulletText).filter
            (fun t => t ≠ "")).map (fun t => "• " ++ t)) fallback_bullets
            = [] then
          (if fallback_bullets ≠ [] then fallback_bullets.take 1
           else ["• Primarily internal maintenance this voyage."])
        else padBullets (((rest.map bulletText).filter
          (fun t => t ≠ "")).map (fun t => "• " ++ t))
          fallback_bullets).take 3 := by
      unfold sanitizedBullets
      rw [hsr]
    refine ⟨?_, ?_, ?_⟩
    · rw [hop, hbul]
      exact ((Except.ok.injEq _ _).mp h).symm
    · rw [hbul]
      exact List.length_take_le _ _
    · rw [hbul]
      intro b hb
      have hb' := List.mem_of_mem_take hb
      split at hb'
      · split at hb'
        · exact Or.inr (List.mem_of_mem_take hb')
        · rw [List.mem_singleton.mp hb']
          exact Or.inl (by rfl)
      · rcases padBullets_mem b _ _ hb' with h1 | h1
        · rcases List.mem_map.mp h1 with ⟨t, _, rfl⟩
          left
          show startsChars "• ".toList ("• " ++ t).toList = true
          rw [show ("• " ++ t).toList = "• ".toList ++ t.toList from rfl]
          rfl
        · exact Or.inr h1

/-- Witness for the amended C9 at a concrete sanitizer run. -/
theorem sanitize_success_copy_bullets_capped_witness :
    "Ahoy\n\n• first\n• second" =
      pyStrip (pyJoin "\n" ([sanitizedOpener "Ahoy\nfirst\nsecond" "op",
        ""] ++ sanitizedBullets "Ahoy\nfirst\nsecond" [])) ∧
    (sanitizedBullets "Ahoy\nfirst\nsecond" []).length ≤ 3 ∧
    ∀ b ∈ sanitizedBullets "Ahoy\nfirst\nsecond" [],
      pyStartsWith b "• " = true ∨ b ∈ ([] : List String) :=
  sanitize_success_copy_bullets_capped "Ahoy\nfirst\nsecond" "op" []
    "Ahoy\n\n• first\n• second" (by rfl)

/-- C4: with the webhook URL variable unset or empty, `main` makes no HTTP
call of any kind and returns without error. -/
theorem mainModel_skips_without_webhook (w : World)
    (h : w.env "CH_DISCORD_WEBHOOK_URL" = none ∨
      w.env "CH_DISCORD_WEBHOOK_URL" = some "") :
    mainModel w = ([], .ok ()) := by
  have hw : envVar w.env "CH_DISCORD_WEBHOOK_URL" "" = "" := by
    rcases h with h | h <;> (unfold envVar; rw [h]; rfl)
  simp only [mainModel]
  rw [if_pos hw]

/-- Witness for C4: a concrete world with no webhook variable. -/
theorem mainModel_skips_without_webhook_witness :
    mainModel ⟨fun _ => none, none, "", fun _ => .error (), .badJson,
      .ok ()⟩ = ([], .ok ()) :=
  mainModel_skips_without_webhook _ (Or.inl rfl)

/-! ## String-containment infrastructure for the failure-branch claim -/

theorem toList_append (a b : String) :
    (a ++ b).toList = a.toList ++ b.toList := rfl

theorem startsChars_iff (sub l : List Char) :
    startsChars sub l = true ↔ sub <+: l := by
  induction sub generalizing l with
  | nil => simp [startsChars]
  | cons a as ih =>
      cases l with
      | nil => simp [startsChars]
      | cons b bs => simp [startsChars, List.cons_prefix_cons, ih]

theorem infixChars_iff (sub l : List Char) :
    infixChars sub l = true ↔ sub <:+: l := by
  induction l with
  | nil => simp [infixChars, startsChars_iff]
  | cons c rest ih =>
      simp [infixChars, startsChars_iff, ih, List.infix_cons_iff]

theorem infix_append_right (x l₁ l₂ : List Char) (h : x <:+: l₂) :
    x <:+: l₁ ++ l₂ := by
  obtain ⟨s, t, rfl⟩ := h
  exact ⟨l₁ ++ s, t, by simp⟩

theorem dropWhile_head_false (p : Char → Bool) (l : List Char) (c : Char)
    (t : List Char) (h : l.dropWhile p = c :: t) : p c = false := by
  induction l with
  | nil => simp at h
  | cons a as ih =>
      rw [List.dropWhile_cons] at h
      split at h
      · exact ih h
      · rename_i hpa
        cases h
        simpa using hpa

theorem pyStripList_eq_self (l : List Char)
    (h1 : ∃ a t, l = a :: t ∧ isSpaceChar a = false)
    (h2 : ∃ m b, l = m ++ [b] ∧ isSpaceChar b = false) :
    pyStripList l = l := by
  obtain ⟨a, t, hat, ha⟩ := h1
  obtain ⟨m, b, hmb, hb⟩ := h2
  unfold pyStripList
  rw [hat, List.dropWhile_cons_of_neg (by simp [ha]), ← hat, hmb,
    List.reverse_append]
  simp only [List.reverse_cons, List.reverse_nil, List.nil_append,
    List.singleton_append]
  rw [List.dropWhile_cons_of_neg (by simp [hb])]
  simp

theorem pyStripList_last_cases (l : List Char) :
    pyStripList l = [] ∨
    ∃ m dd, pyStripList l = m ++ [dd] ∧ isSpaceChar dd = false := by
  unfold pyStripList
  cases hmm : (l.dropWhile isSpaceChar).reverse.dropWhile isSpaceChar with
  | nil => left; rfl
  | cons hd tl =>
      right
      exact ⟨tl.reverse, hd, by simp, dropWhile_head_false _ _ _ _ hmm⟩

theorem envVar_toList_cases (e : String → Option String) (n d : String) :
    (envVar e n d).toList = [] ∨
    ∃ m dd, (envVar e n d).toList = m ++ [dd] ∧ isSpaceChar dd = false :=
  pyStripList_last_cases _

theorem infix_pyStripList (l pre x post : List Char)
    (hl : l = pre ++ (x ++ post))
    (hhead : ∃ a t, l = a :: t ∧ isSpaceChar a = false)
    (hlast : ∃ m b, l = m ++ [b] ∧ isSpaceChar b = false) :
    x <:+: pyStripList l := by
  rw [pyStripList_eq_self l hhead hlast, hl]
  exact infix_append_right _ _ _ ((List.prefix_append _ _).isInfix)

theorem generate_failure_copy_names (repo_name branch actor run_url : String)
    (hru : ∃ m dd, run_url.toList = m ++ [dd] ∧ isSpaceChar dd = false) :
    branch.toList <:+:
      (generate_failure_copy repo_name branch actor run_url).toList ∧
    actor.toList <:+:
      (generate_failure_copy repo_name branch actor run_url).toList ∧
    run_url.toList <:+:
      (generate_failure_copy repo_name branch actor run_url).toList := by
  obtain ⟨m, dd, hm, hdd⟩ := hru
  have h0 : (generate_failure_copy repo_name branch actor run_url).toList =
      pyStripList (pyJoin "\n"
        ["Arr matey, rough seas — " ++ repo_name ++
           " failed to deploy on \x60" ++ branch ++ "\x60.",
         "",
         "• Build/deploy did not land.",
         "• No feature notes posted for failed voyages.",
         "• Triggered by: " ++ actor,
         "",
         "Run: " ++ run_url]).toList := rfl
  have hx : (pyJoin "\n"
      ["Arr matey, rough seas — " ++ repo_name ++
         " failed to deploy on \x60" ++ branch ++ "\x60.",
       "",
       "• Build/deploy did not land.",
       "• No feature notes posted for failed voyages.",
       "• Triggered by: " ++ actor,
       "",
       "Run: " ++ run_url]).toList =
      "Arr matey, rough seas — ".toList ++ repo_name.toList ++
      " failed to deploy on \x60".toList ++ branch.toList ++
      "\x60.".toList ++ "\n".toList ++ "".toList ++ "\n".toList ++
      "• Build/deploy did not land.".toList ++ "\n".toList ++
      "• No feature notes posted for failed voyages.".toList ++
      "\n".toList ++ "• Triggered by: ".toList ++ actor.toList ++
      "\n".toList ++ "".toList ++ "\n".toList ++
      "Run: ".toList ++ run_url.toList := by
    simp only [pyJoin, toList_append, List.append_assoc]
  have hhead : ∃ a t, (pyJoin "\n"
      ["Arr matey, rough seas — " ++ repo_name ++
         " failed to deploy on \x60" ++ branch ++ "\x60.",
       "",
       "• Build/deploy did not land.",
       "• No feature notes posted for failed voyages.",
       "• Triggered by: " ++ actor,
       "",
       "Run: " ++ run_url]).toList = a :: t ∧ isSpaceChar a = false := by
    refine ⟨'A',
      "rr matey, rough seas — ".toList ++ repo_name.toList ++
      " failed to deploy on \x60".toList ++ branch.toList ++
      "\x60.".toList ++ "\n".toList ++ "".toList ++ "\n".toList ++
      "• Build/deploy did not land.".toList ++ "\n".toList ++
      "• No feature notes posted for failed voyages.".toList ++
      "\n".toList ++ "• Triggered by: ".toList ++ actor.toList ++
      "\n".toList ++ "".toList ++ "\n".toList ++
      "Run: ".toList ++ run_url.toList, ?_, rfl⟩
    rw [hx]
    simp only [List.append_assoc]
    rfl
  have hlast : ∃ mm b, (pyJoin "\n"
      ["Arr matey, rough seas — " ++ repo_name ++
         " failed to deploy on \x60" ++ branch ++ "\x60.",
       "",
       "• Build/deploy did not land.",
       "• No feature notes posted for failed voyages.",
       "• Triggered by: " ++ actor,
       "",
       "Run: " ++ run_url]).toList = mm ++ [b] ∧ isSpaceChar b = false := by
    refine ⟨"Arr matey, rough seas — ".toList ++ repo_name.toList ++
      " failed to deploy on \x60".toList ++ branch.toList ++
      "\x60.".toList ++ "\n".toList ++ "".toList ++ "\n".toList ++
      "• Build/deploy did not land.".toList ++ "\n".toList ++
      "• No feature notes posted for failed voyages.".toList ++
      "\n".toList ++ "• Triggered by: ".toList ++ actor.toList ++
      "\n".toList ++ "".toList ++ "\n".toList ++
      "Run: ".toList ++ m, dd, ?_, hdd⟩
    rw [hx, hm]
    simp [List.append_assoc]
  refine ⟨?_, ?_, ?_⟩ <;> rw [h0]
  · exact infix_pyStripList _
      ("Arr matey, rough seas — ".toList ++ repo_name.toList ++
        " failed to deploy on \x60".toList)
      branch.toList
      ("\x60.".toList ++ "\n".toList ++ "".toList ++ "\n".toList ++
        "• Build/deploy did not land.".toList ++ "\n".toList ++
        "• No feature notes posted for failed voyages.".toList ++
        "\n".toList ++ "• Triggered by: ".toList ++ actor.toList ++
        "\n".toList ++ "".toList ++ "\n".toList ++
        "Run: ".toList ++ run_url.toList)
      (by rw [hx]; simp [List.append_assoc]) hhead hlast
  · exact infix_pyStripList _
      ("Arr matey, rough seas — ".toList ++ repo_name.toList ++
        " failed to deploy on \x60".toList ++ branch.toList ++
        "\x60.".toList ++ "\n".toList ++ "".toList ++ "\n".toList ++
        "• Build/deploy did not land.".toList ++ "\n".toList ++
        "• No feature notes posted for failed voyages.".toList ++
        "\n".toList ++ "• Triggered by: ".toList)
      actor.toList
      ("\n".toList ++ "".toList ++ "\n".toList ++
        "Run: ".toList ++ run_url.toList)
      (by rw [hx]; simp [List.append_assoc]) hhead hlast
  · exact infix_pyStripList _
      ("Arr matey, rough seas — ".toList ++ repo_name.toList ++
        " failed to deploy on \x60".toList ++ branch.toList ++
        "\x60.".toList ++ "\n".toList ++ "".toList ++ "\n".toList ++
        "• Build/deploy did not land.".toList ++ "\n".toList ++
        "• No feature notes posted for failed voyages.".toList ++
        "\n".toList ++ "• Triggered by: ".toList ++ actor.toList ++
        "\n".toList ++ "".toList ++ "\n".toList ++ "Run: ".toList)
      run_url.toList
      []
      (by rw [hx]; simp [List.append_assoc]) hhead hlast

/-- C7: whenever the job status (lowercased) is not "success" (and the
webhook URL is set and the event payload is readable), `main` posts
exactly the deterministic templated failure alert — which names the
branch, the actor and the run link — and makes no generation-service call
regardless of any credential; the posted message does not depend on the
commits or the network (the right-hand side mentions neither the git
oracle, the network oracle nor the credential). -/
theorem mainModel_failure_branch (w : World) (before_sha : String)
    (hweb : envVar w.env "CH_DISCORD_WEBHOOK_URL" "" ≠ "")
    (hev : read_event_before_sha w.env w.event = .ok before_sha)
    (hstatus : pyLower (envVar w.env "CH_JOB_STATUS" "unknown") ≠ "success") :
    mainModel w =
      post_discord w.webhook (envVar w.env "CH_DISCORD_WEBHOOK_URL" "")
        (failureContent w) ∧
    infixChars (envVar w.env "GITHUB_REF_NAME" "").toList
      (failureContent w).toList = true ∧
    infixChars (envVar w.env "GITHUB_ACTOR" "").toList
      (failureContent w).toList = true ∧
    infixChars (runUrlOf w).toList (failureContent w).toList = true := by
  have hsplit : (runUrlOf w).toList =
      (envVar w.env "GITHUB_SERVER_URL" "").toList ++ "/".toList ++
      (envVar w.env "GITHUB_REPOSITORY" "").toList ++
      "/actions/runs/".toList ++
      (envVar w.env "GITHUB_RUN_ID" "").toList := by
    simp only [runUrlOf, toList_append, List.append_assoc]
  have hru : ∃ m dd, (runUrlOf w).toList = m ++ [dd] ∧
      isSpaceChar dd = false := by
    rcases envVar_toList_cases w.env "GITHUB_RUN_ID" "" with hz |
      ⟨m, dd, hmm, hdd⟩
    · refine ⟨(envVar w.env "GITHUB_SERVER_URL" "").toList ++ "/".toList ++
        (envVar w.env "GITHUB_REPOSITORY" "").toList ++
        "/actions/runs".toList, '/', ?_, rfl⟩
      rw [hsplit, hz,
        show "/actions/runs/".toList = "/actions/runs".toList ++ ['/']
          from rfl]
      simp [List.append_assoc]
    · refine ⟨(envVar w.env "GITHUB_SERVER_URL" "").toList ++ "/".toList ++
        (envVar w.env "GITHUB_REPOSITORY" "").toList ++
        "/actions/runs/".toList ++ m, dd, ?_, hdd⟩
      rw [hsplit, hmm]
      simp [List.append_assoc]
  obtain ⟨hb, ha, hr⟩ := generate_failure_copy_names
    (normalize_repo_name (envVar w.env "GITHUB_REPOSITORY" ""))
    (envVar w.env "GITHUB_REF_NAME" "")
    (envVar w.env "GITHUB_ACTOR" "")
    (runUrlOf w) hru
  refine ⟨?_, ?_, ?_, ?_⟩
  · simp only [mainModel]
    rw [if_neg hweb]
    simp only [hev]
    rw [if_pos hstatus]
    rfl
  · rw [infixChars_iff]
    exact hb
  · rw [infixChars_iff]
    exact ha
  · rw [infixChars_iff]
    exact hr

/-- Witness for C7 at a concrete failing world. -/
theorem mainModel_failure_branch_witness :
    mainModel failureWorld =
      post_discord (Except.ok ())
        (envVar failureWorld.env "CH_DISCORD_WEBHOOK_URL" "")
        (failureContent failureWorld) ∧
    infixChars (envVar failureWorld.env "GITHUB_REF_NAME" "").toList
      (failureContent failureWorld).toList = true :=
  ⟨(mainModel_failure_branch failureWorld "" (by decide) (by rfl)
      (by decide)).1,
   (mainModel_failure_branch failureWorld "" (by decide) (by rfl)
      (by decide)).2.1⟩

end Captainhook
